import Mathlib

/-!
Verification of the event-queue lifecycle and ingestion loop of the
zulip-openclaw channel plugin (`src/plugin.js`, `gateway.startAccount`).

The poll loop is embedded shallowly: every awaited remote call is an oracle
value supplied by the environment (an `IterOutcome` per loop iteration, a
`CtxOutcome`/`DispatchEnv` per processed message), and the loop body is a pure
Lean function from the current state and those oracle values to the next state
together with a trace of observable actions (fetches, re-registrations,
sleeps, dispatches, log lines).  Machine integers do not overflow in the
modelled code paths (event ids are arbitrary-precision in JS up to 2^53 and
are only compared and stored), so ids are `Int`/`Nat`.
-/

namespace ZulipOpenclaw

/-- A Zulip message object, with exactly the fields the plugin reads:
`msg.id`, `msg.sender_id`, `msg.sender_email`, `msg.sender_full_name`,
`msg.type` (`"stream"` or `"private"`), `msg.display_recipient`,
`msg.subject`, `msg.content` (HTML), `msg.timestamp` (seconds) and
`msg.reactions` (the plugin only reads each reaction's `emoji_name`). -/
structure RawMessage where
  id : Nat
  sender_id : Nat
  sender_email : String
  sender_full_name : String
  type : String
  display_recipient : String
  subject : String
  content : String
  timestamp : Nat
  reactions : List String
  deriving DecidableEq

/-- One element of `result.events` from a `GET /events` call:
`event.id`, `event.type` and `event.message`. -/
structure RawEvent where
  id : Int
  type : String
  message : RawMessage
  deriving DecidableEq

/-- The mutable loop state: the `queueId` and `lastEventId` variables of
`gateway.startAccount`. -/
structure PollState where
  queueId : String
  lastEventId : Int
  deriving DecidableEq

/-- The locally computed fields of the object passed to
`runtime.channel.reply.finalizeInboundContext`.  `SessionKey` and
`AccountId` come from the external route resolver and are not modelled. -/
structure InboundCtx where
  Body : String
  RawBody : String
  From : String
  To : String
  ChatType : String
  SenderName : String
  SenderId : String
  SenderUsername : String
  Provider : String
  Surface : String
  MessageSid : String
  Timestamp : Nat
  ThreadId : Option String
  GroupSubject : Option String
  CommandAuthorized : Bool
  ThreadStarterBody : Option String
  deriving DecidableEq

/-- Observable actions of one account session, in program order. -/
inductive Action where
  | fetch (queueId : String) (lastEventId : Int)
  | rereg
  | identify
  | sleep (ms : Nat)
  | dispatch (ictx : InboundCtx)
  | logInfo (line : String)
  | logWarn (line : String)
  | logError (line : String)
  deriving DecidableEq

/-- Oracle for the context-backfill call `zulipApi(creds, messages?...)`:
it returns a success result with a message list, returns a non-success
result, or throws. -/
inductive CtxOutcome where
  | ok (msgs : List RawMessage)
  | errResult (msg : String)
  | throw (msg : String)
  deriving DecidableEq

/-- Oracle for the dispatch try-block: the whole block succeeds, something
throws before `dispatchReplyWithBufferedBlockDispatcher` is invoked
(e.g. `getPluginRuntime` with an uninitialized runtime), or the dispatch
call itself throws. -/
inductive DispatchEnv where
  | ok
  | preThrow (msg : String)
  | dispatchThrow (msg : String)
  deriving DecidableEq

/-- True when control reaches the dispatch invocation itself. -/
def reachesDispatch : DispatchEnv → Bool
  | .preThrow _ => false
  | _ => true

/-- Per-message oracle bundle: the context fetch outcome and the
behaviour of the dispatch block. -/
structure EventEnv where
  ctx : CtxOutcome
  dispatch : DispatchEnv
  deriving DecidableEq

/-- Membership of the character `>` in a character list. -/
def hasGt : List Char → Bool
  | [] => false
  | c :: rest => if c = '>' then true else hasGt rest

/-- Membership of the character `<` in a character list. -/
def hasLt : List Char → Bool
  | [] => false
  | c :: rest => if c = '<' then true else hasLt rest

/-- There is a `<` with a `>` somewhere after it, i.e. the JS regex
`<[^>]*>` has at least one match. -/
def hasTag : List Char → Bool
  | [] => false
  | c :: rest => if c = '<' then (if hasGt rest then true else hasTag rest) else hasTag rest

/-- Single left-to-right pass implementing `content.replace(/<[^>]*>/g, '')`.
The second argument is `some buf` while scanning inside a candidate tag
(`buf` holds the consumed characters, reversed, starting with `<`): the
candidate closes and is dropped at the first `>`, and is emitted verbatim if
the input ends without one, exactly as the regex leaves an unclosed `<...`
untouched. -/
def stripGo : List Char → Option (List Char) → List Char
  | [], none => []
  | [], some buf => buf.reverse
  | c :: rest, none =>
    if c = '<' then stripGo rest (some [c]) else c :: stripGo rest none
  | c :: rest, some buf =>
    if c = '>' then stripGo rest none else stripGo rest (some (c :: buf))

/-- `content.replace(/<[^>]*>/g, '')` on character lists. -/
def stripTags (l : List Char) : List Char :=
  stripGo l none

/-- `content.replace(/<[^>]*>/g, '')` on strings. -/
def stripHtml (s : String) : String :=
  (stripTags s.data).asString

/-- `pat` is a prefix of `l` (character-by-character). -/
def startsChars : List Char → List Char → Bool
  | [], _ => true
  | _ :: _, [] => false
  | a :: as, b :: bs => if a = b then startsChars as bs else false

/-- `needle` occurs as a contiguous substring of `hay`:
`String(result.msg).includes(needle)`. -/
def containsSub (needle : List Char) : List Char → Bool
  | [] => startsChars needle []
  | c :: rest => if startsChars needle (c :: rest) then true else containsSub needle rest

/-- `hay.includes(needle)` for strings. -/
def includesStr (needle hay : String) : Bool :=
  containsSub needle.data hay.data

/-- `chatId` resolution (plugin.js lines 682-684): stream messages get the
`stream:` prefix plus the stream name, anything else the `private:` prefix
plus the sender's email address. -/
def resolveChatId (msg : RawMessage) : String :=
  if msg.type = "stream" then "stream:" ++ msg.display_recipient
  else "private:" ++ msg.sender_email

/-- `from` resolution (plugin.js lines 685-687). -/
def resolveFrom (msg : RawMessage) : String :=
  if msg.type = "stream" then "zulip:" ++ msg.display_recipient
  else "zulip:" ++ toString msg.sender_id

/-- The label line prefixed to a successful context backfill. -/
def ctxLabel (msg : RawMessage) : String :=
  if msg.type = "stream" then
    "Recent messages in #" ++ msg.display_recipient ++ " > " ++ msg.subject
  else "Recent DM history"

/-- One formatted backfill history line:
`[senderDisplay] strippedContent [reacts: r1, r2, ...]`, with `(bot)` as the
display name for the bot's own messages and the reaction suffix omitted
when there are no reactions. -/
def contextLine (myId : Option Nat) (m : RawMessage) : String :=
  let name := if some m.sender_id = myId then "(bot)" else m.sender_full_name
  let reactStr :=
    if m.reactions.length > 0 then
      " [reacts: " ++ String.intercalate ", " m.reactions ++ "]"
    else ""
  "[" ++ name ++ "] " ++ stripHtml m.content ++ reactStr

/-- The `threadStarterBody` value after the context-backfill try-block:
set only when the call returned success with a non-empty message list;
a non-success result, an empty list or a throw all leave it `undefined`. -/
def computeThreadStarter (myId : Option Nat) (msg : RawMessage) (co : CtxOutcome) : Option String :=
  match co with
  | .ok msgs =>
    if msgs.length > 0 then
      some (ctxLabel msg ++ ":\n" ++ String.intercalate "\n" (msgs.map (contextLine myId)))
    else none
  | .errResult _ => none
  | .throw _ => none

/-- Log lines produced by the context-backfill try-block: a warning only
when the call threw. -/
def ctxWarnActions : CtxOutcome → List Action
  | .throw m => [Action.logWarn ("[zulip] Failed to fetch context: " ++ m)]
  | _ => []

/-- The inbound-context object built for dispatch (plugin.js lines 746-765),
restricted to its locally computed fields. -/
def buildInboundCtx (email : String) (msg : RawMessage)
    (tsb : Option String) : InboundCtx :=
  let isStream := msg.type = "stream"
  { Body := stripHtml msg.content
    RawBody := stripHtml msg.content
    From := resolveFrom msg
    To := "zulip:" ++ email
    ChatType := if isStream then "group" else "direct"
    SenderName := msg.sender_full_name
    SenderId := toString msg.sender_id
    SenderUsername := msg.sender_email
    Provider := "zulip-moltbot"
    Surface := "zulip"
    MessageSid := toString msg.id
    Timestamp := msg.timestamp * 1000
    ThreadId := if isStream then some msg.subject else none
    GroupSubject := if isStream then some msg.display_recipient else none
    CommandAuthorized := true
    ThreadStarterBody := tsb }

/-- Actions of the dispatch try-block: the dispatch invocation when control
reaches it, and the catch-clause error log when anything in the block threw. -/
def dispatchActs (denv : DispatchEnv) (ictx : InboundCtx) : List Action :=
  match denv with
  | .ok => [Action.dispatch ictx]
  | .preThrow m => [Action.logError ("[zulip] Failed to dispatch message: " ++ m)]
  | .dispatchThrow m =>
    [Action.dispatch ictx, Action.logError ("[zulip] Failed to dispatch message: " ++ m)]

/-- The actions emitted for one fetched event (the body of
`for (const event of result.events)`, after the unconditional cursor
update): nothing for non-message events and for the bot's own messages;
otherwise the received-message log, the context-backfill behaviour and the
dispatch block. -/
def processEventActs (email : String) (myId : Option Nat) (ev : RawEvent)
    (env : EventEnv) : List Action :=
  if ev.type = "message" then
    if some ev.message.sender_id = myId then []
    else
      Action.logInfo ("[zulip] Received message from " ++ ev.message.sender_full_name
          ++ " in " ++ resolveChatId ev.message)
        :: (ctxWarnActions env.ctx
          ++ dispatchActs env.dispatch
              (buildInboundCtx email ev.message
                (computeThreadStarter myId ev.message env.ctx)))
  else []

/-- One iteration of `for (const event of result.events)`:
`lastEventId = event.id` runs first for every event, then the
message-only processing. -/
def processEvent (email : String) (myId : Option Nat) (st : PollState)
    (ev : RawEvent) (env : EventEnv) : PollState × List Action :=
  ({ st with lastEventId := ev.id }, processEventActs email myId ev env)

/-- The whole `for (const event of result.events)` loop, threading the
cursor left to right. -/
def processEvents (email : String) (myId : Option Nat) (st : PollState) :
    List (RawEvent × EventEnv) → PollState × List Action
  | [] => (st, [])
  | pe :: rest =>
    let p := processEvent email myId st pe.1 pe.2
    let q := processEvents email myId p.1 rest
    (q.1, p.2 ++ q.2)

/-- The sequence of `lastEventId` values observed after each event of a
batch is processed. -/
def cursorTrail (email : String) (myId : Option Nat) (st : PollState) :
    List (RawEvent × EventEnv) → List Int
  | [] => []
  | pe :: rest =>
    let p := processEvent email myId st pe.1 pe.2
    p.1.lastEventId :: cursorTrail email myId p.1 rest

/-- Oracle for one poll iteration's `await zulipApi(creds, events?...)`:
a success result with an event list (each event bundled with its
downstream oracles), a non-success result (with, when its `msg` names
`BAD_EVENT_QUEUE_ID`, the outcome of the re-registration call: `some`
of the new `queue_id`/`last_event_id` on success, `none` on a
non-success re-registration result), a thrown `TimeoutError`, or any
other thrown error. -/
inductive IterOutcome where
  | events (evs : List (RawEvent × EventEnv))
  | errResult (msg : String) (rereg : Option (String × Int))
  | timeoutThrow
  | netThrow (msg : String)
  deriving DecidableEq

/-- One iteration of the `while (!ctx.abortSignal?.aborted)` poll loop
(plugin.js lines 651-806). -/
def pollIteration (email : String) (myId : Option Nat) (st : PollState)
    (o : IterOutcome) : PollState × List Action :=
  match o with
  | .events evs =>
    let p := processEvents email myId st evs
    (p.1, Action.fetch st.queueId st.lastEventId :: p.2)
  | .errResult m rr =>
    if includesStr "BAD_EVENT_QUEUE_ID" m then
      match rr with
      | some qc =>
        (⟨qc.1, qc.2⟩,
         [Action.fetch st.queueId st.lastEventId,
          Action.logWarn "[zulip] Queue expired, re-registering...",
          Action.rereg,
          Action.logInfo "[zulip] Re-registered event queue"])
      | none =>
        (st,
         [Action.fetch st.queueId st.lastEventId,
          Action.logWarn "[zulip] Queue expired, re-registering...",
          Action.rereg])
    else
      (st,
       [Action.fetch st.queueId st.lastEventId,
        Action.logError ("[zulip] Poll failed: " ++ m),
        Action.sleep 5000])
  | .timeoutThrow => (st, [Action.fetch st.queueId st.lastEventId])
  | .netThrow m =>
    (st,
     [Action.fetch st.queueId st.lastEventId,
      Action.logError ("[zulip] Poll error: " ++ m),
      Action.sleep 5000])

/-- The poll loop run over a script of iteration oracles (the script length
is the number of iterations before the abort signal is observed set). -/
def pollRun (email : String) (myId : Option Nat) (st : PollState) :
    List IterOutcome → PollState × List Action
  | [] => (st, [])
  | o :: os =>
    let p := pollIteration email myId st o
    let q := pollRun email myId p.1 os
    (q.1, p.2 ++ q.2)

/-- The action trace of a poll-loop run. -/
def pollRunActs (email : String) (myId : Option Nat) (st : PollState)
    (script : List IterOutcome) : List Action :=
  (pollRun email myId st script).2

/-- Oracle for the initial `POST /register` call. -/
inductive RegResult where
  | ok (queue_id : String) (last_event_id : Int)
  | err (msg : String)
  deriving DecidableEq

/-- `gateway.startAccount` (plugin.js lines 624-810): start log, queue
registration (a non-success result logs and returns without starting the
loop), the `/users/me` identity call (`meUserId` is the `user_id` field of
its result, `none` when absent — the code does not check this result), and
the poll loop. -/
def startAccount (email : String) (reg : RegResult) (meUserId : Option Nat)
    (script : List IterOutcome) : List Action :=
  Action.logInfo ("[zulip] Starting event poller for " ++ email) ::
    match reg with
    | .err m => [Action.logError ("[zulip] Failed to register event queue: " ++ m)]
    | .ok q c => Action.identify :: pollRunActs email meUserId ⟨q, c⟩ script

/-- Recognizer for `Action.fetch`. -/
def isFetch : Action → Bool
  | .fetch _ _ => true
  | _ => false

/-- Recognizer for `Action.dispatch`. -/
def isDispatch : Action → Bool
  | .dispatch _ => true
  | _ => false

/-- Recognizer for `Action.sleep`. -/
def isSleep : Action → Bool
  | .sleep _ => true
  | _ => false

/-- Recognizer for `Action.rereg`. -/
def isRereg : Action → Bool
  | .rereg => true
  | _ => false

/-- Number of actions matching a recognizer in a trace. -/
def countActs (p : Action → Bool) (l : List Action) : Nat :=
  (l.filter p).length

/-- The context-backfill outcomes the spec calls failures: a throw, a
non-success result, or a success with an empty message list. -/
def ctxFailed : CtxOutcome → Bool
  | .ok msgs => msgs.isEmpty
  | .errResult _ => true
  | .throw _ => true

/-- A concrete stream message from a non-self sender. -/
def exStreamMsg : RawMessage :=
  ⟨10, 2, "alice@example.com", "Alice", "stream", "general", "intro", "<p>hi</p>", 1700, []⟩

/-- A concrete direct message from a non-self sender. -/
def exDmMsg : RawMessage :=
  ⟨11, 3, "bob@example.com", "Bob", "private", "", "", "<p>yo</p>", 1701, []⟩

/-- A concrete message authored by the bot itself (self id 7). -/
def exSelfMsg : RawMessage :=
  { exStreamMsg with sender_id := 7 }

/-- A placeholder payload for non-message events. -/
def reactionMsg : RawMessage :=
  ⟨0, 0, "", "", "", "", "", "", 0, []⟩

/-- A benign per-event oracle: empty context result, clean dispatch. -/
def idleEnv : EventEnv :=
  ⟨CtxOutcome.ok [], DispatchEnv.ok⟩

theorem stripGo_buf_noGt {l : List Char} (h : hasGt l = false) (buf : List Char) :
    stripGo l (some buf) = buf.reverse ++ l := by
  induction l generalizing buf with
  | nil => simp [stripGo]
  | cons c rest ih =>
    simp only [hasGt] at h
    by_cases hc : c = '>'
    · rw [if_pos hc] at h
      exact absurd h (by simp)
    · rw [if_neg hc] at h
      simp only [stripGo, if_neg hc]
      rw [ih h]
      simp

theorem stripGo_noTag {l : List Char} (h : hasTag l = false) : stripGo l none = l := by
  induction l with
  | nil => simp [stripGo]
  | cons c rest ih =>
    simp only [hasTag] at h
    by_cases hc : c = '<'
    · rw [if_pos hc] at h
      by_cases hg : hasGt rest = true
      · rw [if_pos hg] at h
        exact absurd h (by simp)
      · have hg' : hasGt rest = false := by simpa using hg
        simp only [stripGo, if_pos hc]
        rw [stripGo_buf_noGt hg']
        simp [hc]
    · rw [if_neg hc] at h
      simp only [stripGo, if_neg hc]
      rw [ih h]

theorem stripGo_closeTag {i : List Char} (h : hasGt i = false) (b buf : List Char) :
    stripGo (i ++ '>' :: b) (some buf) = stripGo b none := by
  induction i generalizing buf with
  | nil => simp [stripGo]
  | cons c i ih =>
    simp only [hasGt] at h
    by_cases hc : c = '>'
    · rw [if_pos hc] at h
      exact absurd h (by simp)
    · rw [if_neg hc] at h
      simp only [List.cons_append, stripGo, if_neg hc]
      exact ih h _

theorem stripTags_removes_tag {a i : List Char} (ha : hasLt a = false)
    (hi : hasGt i = false) (b : List Char) :
    stripTags (a ++ '<' :: (i ++ '>' :: b)) = a ++ stripTags b := by
  induction a with
  | nil =>
    simp only [List.nil_append, stripTags, stripGo, if_pos rfl]
    exact stripGo_closeTag hi b ['<']
  | cons c a ih =>
    simp only [hasLt] at ha
    by_cases hc : c = '<'
    · rw [if_pos hc] at ha
      exact absurd ha (by simp)
    · rw [if_neg hc] at ha
      simp only [List.cons_append, stripTags, stripGo, if_neg hc]
      show c :: stripTags (a ++ '<' :: (i ++ '>' :: b)) = c :: (a ++ stripTags b)
      rw [ih ha]

/-- Claim C8: the markup stripper removes each maximal tag run
(`<`, non-`>` characters, `>`) and keeps all other characters in order
(third conjunct, for any tag-free left part and tag interior); on the
spec's example it yields `"Hello world!"`; it is the identity on text with
no tag sequence; and the very same `stripHtml` is applied to the dispatched
message body (`Body`/`RawBody`) and to each backfilled history line. -/
theorem strip_markup_spec :
    stripHtml "<p>Hello <strong>world</strong>!</p>" = "Hello world!" ∧
    (∀ s : String, hasTag s.data = false → stripHtml s = s) ∧
    (∀ a i b : List Char, hasLt a = false → hasGt i = false →
      stripTags (a ++ '<' :: (i ++ '>' :: b)) = a ++ stripTags b) ∧
    (∀ (email : String) (msg : RawMessage) (tsb : Option String),
      (buildInboundCtx email msg tsb).Body = stripHtml msg.content ∧
      (buildInboundCtx email msg tsb).RawBody = stripHtml msg.content) ∧
    (∀ (myId : Option Nat) (m : RawMessage), contextLine myId m =
      "[" ++ (if some m.sender_id = myId then "(bot)" else m.sender_full_name) ++ "] "
        ++ stripHtml m.content
        ++ (if m.reactions.length > 0 then
              " [reacts: " ++ String.intercalate ", " m.reactions ++ "]"
            else "")) := by
  refine ⟨by decide, ?_, ?_, ?_, ?_⟩
  · intro s h
    cases s with
    | mk l =>
      show (stripTags l).asString = String.mk l
      rw [stripTags, stripGo_noTag h]
      rfl
  · intro a i b ha hi
    exact stripTags_removes_tag ha hi b
  · intro email msg tsb
    exact ⟨rfl, rfl⟩
  · intro myId m
    rfl

/-- Claim C8 witness: the identity conjunct at the tag-free string
`"Hello world"` and the tag-removal conjunct at a concrete
decomposition. -/
theorem strip_markup_spec_witness :
    hasTag (String.data "Hello world") = false ∧
    stripHtml "Hello world" = "Hello world" ∧
    stripTags (['a'] ++ '<' :: (['p'] ++ '>' :: ['b'])) = ['a'] ++ stripTags ['b'] :=
  ⟨by decide, strip_markup_spec.2.1 "Hello world" (by decide),
   strip_markup_spec.2.2.1 ['a'] ['p'] ['b'] (by decide) (by decide)⟩

theorem pollIteration_acts_head (email : String) (myId : Option Nat)
    (st : PollState) (o : IterOutcome) :
    (pollIteration email myId st o).2.head? = some (Action.fetch st.queueId st.lastEventId) := by
  cases o with
  | events evs => simp [pollIteration]
  | errResult m rr =>
    simp only [pollIteration]
    by_cases hb : includesStr "BAD_EVENT_QUEUE_ID" m = true
    · rw [if_pos hb]
      cases rr with
      | none => simp
      | some qc => simp
    · rw [if_neg hb]
      simp
  | timeoutThrow => simp [pollIteration]
  | netThrow m => simp [pollIteration]

theorem pollRunActs_cons (email : String) (myId : Option Nat) (st : PollState)
    (o : IterOutcome) (os : List IterOutcome) :
    pollRunActs email myId st (o :: os) =
      (pollIteration email myId st o).2
        ++ pollRunActs email myId (pollIteration email myId st o).1 os := by
  simp [pollRunActs, pollRun]

theorem pollRunActs_head (email : String) (myId : Option Nat) (st : PollState)
    (o : IterOutcome) (os : List IterOutcome) :
    (pollRunActs email myId st (o :: os)).head? = some (Action.fetch st.queueId st.lastEventId) := by
  have h := pollIteration_acts_head email myId st o
  rw [pollRunActs_cons]
  cases hacts : (pollIteration email myId st o).2 with
  | nil =>
    rw [hacts] at h
    simp at h
  | cons a t =>
    rw [hacts] at h
    simp only [List.head?_cons, Option.some.injEq] at h
    simp [h]

theorem processEventActs_no_fetch (email : String) (myId : Option Nat)
    (ev : RawEvent) (env : EventEnv) :
    (processEventActs email myId ev env).filter isFetch = [] := by
  rcases env with ⟨co, denv⟩
  unfold processEventActs
  by_cases ht : ev.type = "message"
  · by_cases hs : some ev.message.sender_id = myId
    · simp [ht, hs]
    · cases co <;> cases denv <;>
        simp [ht, hs, ctxWarnActions, dispatchActs, isFetch]
  · simp [ht]

theorem processEvents_no_fetch (email : String) (myId : Option Nat)
    (st : PollState) (evs : List (RawEvent × EventEnv)) :
    (processEvents email myId st evs).2.filter isFetch = [] := by
  induction evs generalizing st with
  | nil => simp [processEvents]
  | cons pe rest ih =>
    simp only [processEvents, List.filter_append, processEvent]
    rw [processEventActs_no_fetch, ih]
    rfl

theorem pollIteration_one_fetch (email : String) (myId : Option Nat)
    (st : PollState) (o : IterOutcome) :
    countActs isFetch (pollIteration email myId st o).2 = 1 := by
  cases o with
  | events evs =>
    simp [pollIteration, countActs, List.filter_cons, isFetch,
      processEvents_no_fetch email myId st evs]
  | errResult m rr =>
    simp only [pollIteration]
    by_cases hb : includesStr "BAD_EVENT_QUEUE_ID" m = true
    · rw [if_pos hb]
      cases rr with
      | none => simp [countActs, isFetch]
      | some qc => simp [countActs, isFetch]
    · rw [if_neg hb]
      simp [countActs, isFetch]
  | timeoutThrow => simp [pollIteration, countActs, isFetch]
  | netThrow m => simp [pollIteration, countActs, isFetch]

theorem pollRun_fetch_count (email : String) (myId : Option Nat)
    (st : PollState) (script : List IterOutcome) :
    countActs isFetch (pollRunActs email myId st script) = script.length := by
  induction script generalizing st with
  | nil => simp [pollRunActs, pollRun, countActs]
  | cons o os ih =>
    rw [pollRunActs_cons]
    simp only [countActs, List.filter_append, List.length_append]
    rw [show ((pollIteration email myId st o).2.filter isFetch).length
          = countActs isFetch (pollIteration email myId st o).2 from rfl]
    rw [pollIteration_one_fetch]
    rw [show ((pollRunActs email myId (pollIteration email myId st o).1 os).filter isFetch).length
          = countActs isFetch (pollRunActs email myId (pollIteration email myId st o).1 os) from rfl]
    rw [ih]
    simp only [List.length_cons]
    omega

theorem processEvents_cursor (email : String) (myId : Option Nat)
    (st : PollState) (evs : List (RawEvent × EventEnv)) :
    (processEvents email myId st evs).1.lastEventId
      = (evs.map fun pe => pe.1.id).getLastD st.lastEventId := by
  induction evs generalizing st with
  | nil => simp [processEvents]
  | cons pe rest ih =>
    simp only [processEvents, List.map_cons, List.getLastD_cons]
    exact ih _

theorem cursorTrail_eq_ids (email : String) (myId : Option Nat)
    (st : PollState) (evs : List (RawEvent × EventEnv)) :
    cursorTrail email myId st evs = evs.map fun pe => pe.1.id := by
  induction evs generalizing st with
  | nil => simp [cursorTrail]
  | cons pe rest ih =>
    simp only [cursorTrail, List.map_cons, processEvent, List.cons.injEq]
    exact ⟨trivial, ih _⟩

theorem chain'_foldl_max (a : Int) (l : List Int)
    (h : List.Chain' (· ≤ ·) (a :: l)) :
    l.foldl max a = l.getLastD a := by
  induction l generalizing a with
  | nil => rfl
  | cons b l ih =>
    rw [List.chain'_cons] at h
    simp only [List.foldl_cons, List.getLastD_cons]
    rw [max_eq_right h.1]
    exact ih b h.2

/-- Claim C1: a fetched `"message"` event whose sender id equals the bot's
resolved identity is skipped: the event contributes no actions at all — in
particular it is never dispatched into the reply pipeline — yet the stored
cursor still advances to the event's id. -/
theorem self_message_skipped_cursor_advances (email : String) (myId : Option Nat)
    (st : PollState) (ev : RawEvent) (env : EventEnv)
    (ht : ev.type = "message") (hs : some ev.message.sender_id = myId) :
    (processEvent email myId st ev env).1.lastEventId = ev.id ∧
    (processEvent email myId st ev env).2 = [] := by
  refine ⟨rfl, ?_⟩
  simp [processEvent, processEventActs, ht, hs]

/-- Claim C1 witness at a concrete self-authored event. -/
theorem self_message_skipped_cursor_advances_witness :
    (processEvent "bot@example.com" (some 7) ⟨"q1", 0⟩ ⟨6, "message", exSelfMsg⟩ idleEnv).1.lastEventId = 6 ∧
    (processEvent "bot@example.com" (some 7) ⟨"q1", 0⟩ ⟨6, "message", exSelfMsg⟩ idleEnv).2 = [] :=
  self_message_skipped_cursor_advances "bot@example.com" (some 7) ⟨"q1", 0⟩
    ⟨6, "message", exSelfMsg⟩ idleEnv (by decide) (by decide)

/-- Claim C2 counterexample: a fetch returning events with ids `[5, 3]`
(not ascending) leaves the stored cursor at `3`, although the maximum id
seen so far is `5` — the final update regressed the cursor, so the claim's
"cursor equals the maximum id seen, no regression, for any sequence of
event ids" is false on the code. -/
theorem cursor_not_max_on_descending_batch :
    cursorTrail "e" (some 1) ⟨"q1", 0⟩
        [(⟨5, "reaction", reactionMsg⟩, idleEnv), (⟨3, "reaction", reactionMsg⟩, idleEnv)]
      = [5, 3] ∧
    (processEvents "e" (some 1) ⟨"q1", 0⟩
        [(⟨5, "reaction", reactionMsg⟩, idleEnv), (⟨3, "reaction", reactionMsg⟩, idleEnv)]).1.lastEventId
      = 3 ∧
    ¬ (3 : Int) = 5 :=
  ⟨by decide, by decide, by decide⟩

/-- Claim C2 (amended): the cursor is updated once per event, in exactly
the order the events were returned — the cursor trail is the delivered id
sequence, with no skip and no reordering; and provided each batch arrives
in ascending id order continuing from the current cursor (as the server
returns events), the cursor after the batch equals the maximum id seen so
far. -/
theorem cursor_ordered_and_max_when_ascending (email : String) (myId : Option Nat)
    (st : PollState) (evs : List (RawEvent × EventEnv))
    (h : List.Chain' (· ≤ ·) (st.lastEventId :: evs.map fun pe => pe.1.id)) :
    cursorTrail email myId st evs = (evs.map fun pe => pe.1.id) ∧
    (processEvents email myId st evs).1.lastEventId
      = (evs.map fun pe => pe.1.id).foldl max st.lastEventId := by
  refine ⟨cursorTrail_eq_ids email myId st evs, ?_⟩
  rw [processEvents_cursor, chain'_foldl_max _ _ h]

/-- Claim C2 witness at an ascending batch `[3, 7]` from cursor `0`. -/
theorem cursor_ordered_and_max_when_ascending_witness :
    cursorTrail "e" (some 1) ⟨"q1", 0⟩
        [(⟨3, "reaction", reactionMsg⟩, idleEnv), (⟨7, "reaction", reactionMsg⟩, idleEnv)]
      = [3, 7] ∧
    (processEvents "e" (some 1) ⟨"q1", 0⟩
        [(⟨3, "reaction", reactionMsg⟩, idleEnv), (⟨7, "reaction", reactionMsg⟩, idleEnv)]).1.lastEventId
      = [(3 : Int), 7].foldl max 0 :=
  cursor_ordered_and_max_when_ascending "e" (some 1) ⟨"q1", 0⟩
    [(⟨3, "reaction", reactionMsg⟩, idleEnv), (⟨7, "reaction", reactionMsg⟩, idleEnv)]
    (by
      show List.Chain' (· ≤ ·) [(0 : Int), 3, 7]
      norm_num [List.chain'_cons, List.chain'_singleton])

/-- Claim C3: a fetch result naming `BAD_EVENT_QUEUE_ID` with a successful
re-registration makes the iteration perform exactly the failed fetch, a
warn log, one re-registration call and an info log — no sleep, no
dispatch — adopt exactly the queue id and cursor of the re-registration
response, and the next fetch then uses those values. -/
theorem queue_invalid_single_rereg_no_backoff (email : String) (myId : Option Nat)
    (st : PollState) (m q : String) (c : Int)
    (hb : includesStr "BAD_EVENT_QUEUE_ID" m = true) :
    pollIteration email myId st (.errResult m (some (q, c))) =
      (⟨q, c⟩,
       [Action.fetch st.queueId st.lastEventId,
        Action.logWarn "[zulip] Queue expired, re-registering...",
        Action.rereg,
        Action.logInfo "[zulip] Re-registered event queue"]) ∧
    (∀ o os, (pollRunActs email myId ⟨q, c⟩ (o :: os)).head? = some (Action.fetch q c)) := by
  refine ⟨?_, fun o os => pollRunActs_head email myId ⟨q, c⟩ o os⟩
  simp [pollIteration, hb]

/-- Claim C3 witness: queue `"q1"` at cursor `5` expires; re-registration
returns `("q2", 9)`; the next fetch uses `"q2"` and `9`. -/
theorem queue_invalid_single_rereg_no_backoff_witness :
    pollIteration "bot@example.com" (some 7) ⟨"q1", 5⟩
        (.errResult "BAD_EVENT_QUEUE_ID: queue gone" (some ("q2", 9))) =
      (⟨"q2", 9⟩,
       [Action.fetch "q1" 5,
        Action.logWarn "[zulip] Queue expired, re-registering...",
        Action.rereg,
        Action.logInfo "[zulip] Re-registered event queue"]) ∧
    (pollRunActs "bot@example.com" (some 7) ⟨"q2", 9⟩ [IterOutcome.timeoutThrow]).head?
      = some (Action.fetch "q2" 9) :=
  have h := queue_invalid_single_rereg_no_backoff "bot@example.com" (some 7) ⟨"q1", 5⟩
    "BAD_EVENT_QUEUE_ID: queue gone" "q2" 9 (by decide)
  ⟨h.1, h.2 IterOutcome.timeoutThrow []⟩

/-- Claim C4: a thrown long-poll timeout ends the iteration right after the
fetch with no sleep; a thrown non-timeout error, or a non-success result
not naming `BAD_EVENT_QUEUE_ID`, inserts a 5000 ms sleep before the next
iteration; and in every case the loop keeps going — one fetch per scripted
iteration, for any script, never terminating on its own. -/
theorem timeout_immediate_transport_backoff (email : String) (myId : Option Nat)
    (st : PollState) (m : String) (rr : Option (String × Int))
    (hm : includesStr "BAD_EVENT_QUEUE_ID" m = false) :
    pollIteration email myId st .timeoutThrow
      = (st, [Action.fetch st.queueId st.lastEventId]) ∧
    pollIteration email myId st (.netThrow m)
      = (st, [Action.fetch st.queueId st.lastEventId,
              Action.logError ("[zulip] Poll error: " ++ m),
              Action.sleep 5000]) ∧
    pollIteration email myId st (.errResult m rr)
      = (st, [Action.fetch st.queueId st.lastEventId,
              Action.logError ("[zulip] Poll failed: " ++ m),
              Action.sleep 5000]) ∧
    (∀ script, countActs isFetch (pollRunActs email myId st script) = script.length) := by
  refine ⟨rfl, rfl, ?_, fun script => pollRun_fetch_count email myId st script⟩
  simp [pollIteration, hm]

/-- Claim C4 witness at a concrete network error message. -/
theorem timeout_immediate_transport_backoff_witness :
    pollIteration "bot@example.com" (some 7) ⟨"q1", 5⟩ .timeoutThrow
      = (⟨"q1", 5⟩, [Action.fetch "q1" 5]) ∧
    pollIteration "bot@example.com" (some 7) ⟨"q1", 5⟩ (.netThrow "ECONNRESET")
      = (⟨"q1", 5⟩, [Action.fetch "q1" 5,
                     Action.logError ("[zulip] Poll error: " ++ "ECONNRESET"),
                     Action.sleep 5000]) ∧
    pollIteration "bot@example.com" (some 7) ⟨"q1", 5⟩ (.errResult "ECONNRESET" none)
      = (⟨"q1", 5⟩, [Action.fetch "q1" 5,
                     Action.logError ("[zulip] Poll failed: " ++ "ECONNRESET"),
                     Action.sleep 5000]) ∧
    countActs isFetch (pollRunActs "bot@example.com" (some 7) ⟨"q1", 5⟩
        [IterOutcome.timeoutThrow, IterOutcome.netThrow "x"]) = 2 :=
  have h := timeout_immediate_transport_backoff "bot@example.com" (some 7) ⟨"q1", 5⟩
    "ECONNRESET" none (by decide)
  ⟨h.1, h.2.1, h.2.2.1, h.2.2.2 [IterOutcome.timeoutThrow, IterOutcome.netThrow "x"]⟩

/-- Claim C5: whatever the context-backfill outcome — a throw, a
non-success result, or an empty message list — a non-self message is still
dispatched exactly once (provided nothing unrelated throws before the
dispatch call is reached), and on any of those failure outcomes the
dispatched context carries no `ThreadStarterBody`; the backfill outcome is
consumed inside the event's processing, never escaping to the poll loop. -/
theorem context_failure_still_dispatches (email : String) (myId : Option Nat)
    (st : PollState) (ev : RawEvent) (env : EventEnv)
    (ht : ev.type = "message") (hs : ¬ some ev.message.sender_id = myId)
    (hd : reachesDispatch env.dispatch = true) :
    (processEvent email myId st ev env).2.filter isDispatch =
      [Action.dispatch (buildInboundCtx email ev.message
        (computeThreadStarter myId ev.message env.ctx))] ∧
    (ctxFailed env.ctx = true → computeThreadStarter myId ev.message env.ctx = none) := by
  constructor
  · rcases env with ⟨co, denv⟩
    cases co <;> cases denv <;>
      simp_all [processEvent, processEventActs, ctxWarnActions, dispatchActs,
        isDispatch, reachesDispatch]
  · intro hf
    cases hco : env.ctx with
    | ok msgs =>
      rw [hco] at hf
      simp only [ctxFailed] at hf
      simp [computeThreadStarter, List.isEmpty_iff.mp hf]
    | errResult m => rfl
    | throw m => rfl

/-- Claim C5 witness: the backfill call throws, yet the concrete stream
message is dispatched once with no attached context. -/
theorem context_failure_still_dispatches_witness :
    (processEvent "bot@example.com" (some 7) ⟨"q1", 0⟩ ⟨5, "message", exStreamMsg⟩
        ⟨CtxOutcome.throw "boom", DispatchEnv.ok⟩).2.filter isDispatch =
      [Action.dispatch (buildInboundCtx "bot@example.com" exStreamMsg none)] ∧
    computeThreadStarter (some 7) exStreamMsg (CtxOutcome.throw "boom") = none :=
  have h := context_failure_still_dispatches "bot@example.com" (some 7) ⟨"q1", 0⟩
    ⟨5, "message", exStreamMsg⟩ ⟨CtxOutcome.throw "boom", DispatchEnv.ok⟩
    (by decide) (by decide) (by decide)
  ⟨h.1, h.2 (by decide)⟩

/-- Claim C6 counterexample: with a successful queue registration but a
failed identity resolution (a `/users/me` result carrying no `user_id`,
modelled as `none`), the session still starts the poll loop — the first
iteration's fetch appears in the session trace — contradicting the claim
that an identity-resolution failure prevents the poll loop from starting. -/
theorem identity_failure_still_starts_loop :
    Action.fetch "q1" 0 ∈
      startAccount "bot@example.com" (.ok "q1" 0) none [IterOutcome.timeoutThrow] := by
  decide

/-- Claim C6 (amended): a failed queue registration logs the failure and
starts no poll loop — the session trace is exactly the start log and the
error log; the identity-resolution result, however, is never checked: even
when it fails (`none`), the loop runs, performing one fetch per scripted
iteration. -/
theorem registration_failure_fatal_identity_unchecked (email m q : String) (c : Int)
    (mid : Option Nat) (script : List IterOutcome) :
    startAccount email (.err m) mid script =
      [Action.logInfo ("[zulip] Starting event poller for " ++ email),
       Action.logError ("[zulip] Failed to register event queue: " ++ m)] ∧
    countActs isFetch (startAccount email (.ok q c) none script) = script.length := by
  constructor
  · rfl
  · show countActs isFetch (Action.logInfo ("[zulip] Starting event poller for " ++ email)
        :: Action.identify :: pollRunActs email none ⟨q, c⟩ script) = script.length
    simp only [countActs, List.filter_cons]
    rw [show isFetch (Action.logInfo ("[zulip] Starting event poller for " ++ email)) = false from rfl]
    rw [show isFetch Action.identify = false from rfl]
    exact pollRun_fetch_count email none ⟨q, c⟩ script

/-- Claim C7: scope resolution is a total function of the message: a
stream message yields `chatId = "stream:" ++ streamName`, `ChatType`
`"group"`, an attached `ThreadId` (the topic) and `GroupSubject`; any
other message yields `chatId = "private:" ++ senderEmail`, `ChatType`
`"direct"`, and no `ThreadId`/`GroupSubject`. -/
theorem scope_resolution_chat_fields (email : String) (msg : RawMessage)
    (tsb : Option String) :
    (msg.type = "stream" →
      resolveChatId msg = "stream:" ++ msg.display_recipient ∧
      (buildInboundCtx email msg tsb).ChatType = "group" ∧
      (buildInboundCtx email msg tsb).ThreadId = some msg.subject ∧
      (buildInboundCtx email msg tsb).GroupSubject = some msg.display_recipient) ∧
    (¬ msg.type = "stream" →
      resolveChatId msg = "private:" ++ msg.sender_email ∧
      (buildInboundCtx email msg tsb).ChatType = "direct" ∧
      (buildInboundCtx email msg tsb).ThreadId = none ∧
      (buildInboundCtx email msg tsb).GroupSubject = none) := by
  constructor <;> intro h <;> simp [resolveChatId, buildInboundCtx, h]

/-- Claim C7 witness at a concrete stream message and a concrete direct
message. -/
theorem scope_resolution_chat_fields_witness :
    (resolveChatId exStreamMsg = "stream:general" ∧
     (buildInboundCtx "bot@example.com" exStreamMsg none).ChatType = "group" ∧
     (buildInboundCtx "bot@example.com" exStreamMsg none).ThreadId = some "intro") ∧
    (resolveChatId exDmMsg = "private:bob@example.com" ∧
     (buildInboundCtx "bot@example.com" exDmMsg none).ChatType = "direct" ∧
     (buildInboundCtx "bot@example.com" exDmMsg none).ThreadId = none) :=
  have hs := (scope_resolution_chat_fields "bot@example.com" exStreamMsg none).1 (by decide)
  have hd := (scope_resolution_chat_fields "bot@example.com" exDmMsg none).2 (by decide)
  ⟨⟨hs.1, hs.2.1, hs.2.2.1⟩, ⟨hd.1, hd.2.1, hd.2.2.1⟩⟩

/-- Claim C9 (implicit): every fetched event whose type is not
`"message"` — including the subscribed `"reaction"` events — advances the
cursor to its id and produces no action at all: no translation, no
backfill, no dispatch. -/
theorem non_message_events_silent (email : String) (myId : Option Nat)
    (st : PollState) (ev : RawEvent) (env : EventEnv)
    (h : ¬ ev.type = "message") :
    (processEvent email myId st ev env).1.lastEventId = ev.id ∧
    (processEvent email myId st ev env).2 = [] :=
  ⟨rfl, by simp [processEvent, processEventActs, h]⟩

/-- Claim C9 witness at a concrete reaction event. -/
theorem non_message_events_silent_witness :
    (processEvent "bot@example.com" (some 7) ⟨"q1", 0⟩ ⟨8, "reaction", reactionMsg⟩ idleEnv).1.lastEventId = 8 ∧
    (processEvent "bot@example.com" (some 7) ⟨"q1", 0⟩ ⟨8, "reaction", reactionMsg⟩ idleEnv).2 = [] :=
  non_message_events_silent "bot@example.com" (some 7) ⟨"q1", 0⟩
    ⟨8, "reaction", reactionMsg⟩ idleEnv (by decide)

/-- Claim C10 (implicit): on a queue-invalid fetch result whose
re-registration does not report success, both the queue id and the cursor
are left unchanged, the iteration inserts no sleep, and the next fetch
immediately reuses the old (invalid) queue id and cursor. -/
theorem failed_rereg_keeps_handle_no_backoff (email : String) (myId : Option Nat)
    (st : PollState) (m : String)
    (hb : includesStr "BAD_EVENT_QUEUE_ID" m = true) :
    pollIteration email myId st (.errResult m none) =
      (st,
       [Action.fetch st.queueId st.lastEventId,
        Action.logWarn "[zulip] Queue expired, re-registering...",
        Action.rereg]) ∧
    (∀ o os, (pollRunActs email myId st (o :: os)).head?
      = some (Action.fetch st.queueId st.lastEventId)) := by
  refine ⟨?_, fun o os => pollRunActs_head email myId st o os⟩
  simp [pollIteration, hb]

/-- Claim C10 witness: re-registration fails; queue `"q1"` and cursor `5`
survive and the next fetch reuses them. -/
theorem failed_rereg_keeps_handle_no_backoff_witness :
    pollIteration "bot@example.com" (some 7) ⟨"q1", 5⟩
        (.errResult "BAD_EVENT_QUEUE_ID: queue gone" none) =
      (⟨"q1", 5⟩,
       [Action.fetch "q1" 5,
        Action.logWarn "[zulip] Queue expired, re-registering...",
        Action.rereg]) ∧
    (pollRunActs "bot@example.com" (some 7) ⟨"q1", 5⟩ [IterOutcome.netThrow "x"]).head?
      = some (Action.fetch "q1" 5) :=
  have h := failed_rereg_keeps_handle_no_backoff "bot@example.com" (some 7) ⟨"q1", 5⟩
    "BAD_EVENT_QUEUE_ID: queue gone" (by decide)
  ⟨h.1, h.2 (IterOutcome.netThrow "x") []⟩

end ZulipOpenclaw
